import Mathlib

/-!
Shallow embedding of the Oracle Cloud resource-adapter kit
(`tortuga/resourceAdapter/oracleadapter.py`): the launch orchestration
(`start` / `__add_nodes` / `__oci_add_nodes` / `__oci_add_node` /
`__oci_pre_launch_instance` / `_launch_instance` / `_instance_post_launch`),
the instance-state polling loop (`_wait_for_instance_state`), the
decommission path (`_delete_node`) and the `OciSession` configuration
object.  External collaborators (the OCI SDK clients, the registry's
persistence engine, the naming policy) are modelled at the interface
boundary: provider calls become explicit outcome parameters and the
registry session becomes an explicit value threaded through the
operations.  Concurrency of launch units is modelled by quantifying over
the list of per-unit outcomes in completion order.
-/

namespace OracleKit

/-! ### Python `int(str)` conversion

`OciSession.cores_from_shape` evaluates `int(self.config['shape'].split('.')[-1])`.
We embed CPython's `int` string conversion on ASCII inputs: surrounding
whitespace is stripped, an optional single `+`/`-` sign is consumed, and the
rest must be a nonempty digit sequence in which single underscores may appear
between digits (never leading, trailing or doubled). -/

/-- Digit sequence with single underscores allowed between digits, as accepted
by CPython's `int`; returns the accumulated value. -/
def pyDigitsGo (acc : Nat) : List Char → Option Nat
  | [] => some acc
  | '_' :: c :: rest =>
      if c.isDigit then pyDigitsGo (acc * 10 + (c.toNat - 48)) rest else none
  | ['_'] => none
  | c :: rest =>
      if c.isDigit then pyDigitsGo (acc * 10 + (c.toNat - 48)) rest else none

/-- Nonempty digit sequence (underscores between digits allowed). -/
def pyDigits : List Char → Option Nat
  | [] => none
  | c :: rest => if c.isDigit then pyDigitsGo (c.toNat - 48) rest else none

/-- Model of CPython `int(s)` on ASCII strings: strip whitespace, optional
sign, then a digit sequence; `none` models the `ValueError` raised on any
other input. -/
def pyIntParse (s : String) : Option Int :=
  let l := (s.data.dropWhile Char.isWhitespace).reverse.dropWhile Char.isWhitespace
  let l := l.reverse
  match l with
  | '+' :: rest => (pyDigits rest).map Int.ofNat
  | '-' :: rest => (pyDigits rest).map (fun n => -(n : Int))
  | _ => (pyDigits l).map Int.ofNat

/-- Python `s.split('.')` on the character list: splitting on `'.'` always
yields at least one (possibly empty) segment. -/
def splitCharsOnDot : List Char → List (List Char)
  | [] => [[]]
  | c :: rest =>
      match splitCharsOnDot rest with
      | [] => [[]]
      | seg :: segs =>
          if c = '.' then [] :: seg :: segs else (c :: seg) :: segs

/-- Python `s.split('.')`. -/
def splitDot (s : String) : List String :=
  (splitCharsOnDot s.data).map String.mk

/-- Python `'.'.join(parts)`. -/
def joinDot : List String → String
  | [] => ""
  | [x] => x
  | x :: xs => x ++ "." ++ joinDot xs

/-- Python `s.split('.')[-1]`: `split` never returns an empty list, so
`getLastD` with a default is exact. -/
def lastSeg (s : String) : String :=
  (splitDot s).getLastD ""

/-! ### Configuration dictionaries and `OciSession` -/

/-- The resource-adapter configuration dictionary (the dict returned by the
superclass `getResourceAdapterConfig` and merged into `OciSession` defaults).
Only the keys the modelled code paths read are tracked; `none` models an
absent key. -/
structure RawConfig where
  shape : Option String := none
  vcpus : Option Int := none
  user_data_script_template : Option String := none
  availability_domain : Option String := none
  compartment_id : Option String := none
  subnet_id : Option String := none
  image_id : Option String := none
  deriving DecidableEq, Repr

/-- Default shape from `OciSession.__init__`. -/
def defaultShape : String := "VM.Standard1.1"

/-- Effective shape after merging the override dict into the defaults. -/
def RawConfig.effShape (cfg : RawConfig) : String :=
  cfg.shape.getD defaultShape

/-- Effective user-data template path after the merge; the default is
`os.path.join(ConfigManager().getKitConfigBase(), 'oci_bootstrap.tmpl')`. -/
def RawConfig.effTemplate (cfg : RawConfig) (kitConfigBase : String) : String :=
  cfg.user_data_script_template.getD (kitConfigBase ++ "/oci_bootstrap.tmpl")

/-- Cores of shape for UGE slots: `int(self.config['shape'].split('.')[-1])`;
`none` models the `ValueError` when the last segment is not `int`-parseable. -/
def cores_from_shape (shape : String) : Option Int :=
  pyIntParse (lastSeg shape)

/-- The merged session configuration held by a constructed `OciSession`
(fields the modelled paths read). -/
structure OciSession where
  shape : String
  vcpus : Int
  template : String
  deriving DecidableEq, Repr

/-- Embeds `OciSession.__init__`: merge the override dict into the defaults;
when the merged `vcpus` value is falsy (absent, `None`, or `0`) derive it via
`cores_from_shape`, whose `int()` conversion may raise (`.error`). -/
def OciSession.make (kitConfigBase : String) (cfg : RawConfig) :
    Except String OciSession :=
  let shape := cfg.effShape
  if cfg.vcpus = none ∨ cfg.vcpus = some 0 then
    match cores_from_shape shape with
    | some n =>
        .ok { shape := shape, vcpus := n,
              template := cfg.effTemplate kitConfigBase }
    | none => .error "ValueError: invalid literal for int()"
  else
    .ok { shape := shape, vcpus := cfg.vcpus.getD 0,
          template := cfg.effTemplate kitConfigBase }

/-! ### Node registry: `Nodes` / `Nic` records and the database session

`__oci_pre_launch_instance` / `__oci_add_node` / `_instance_post_launch` drive
a SQLAlchemy session via `add`, `delete` and `commit`.  The session is
modelled as a committed registry (list of node records) plus a list of staged
operations; `commit` flushes the staged operations in order. -/

/-- A `Nic` row: the adapter only sets `ip` and `boot`. -/
structure Nic where
  ip : String
  boot : Bool
  deriving DecidableEq, Repr

/-- A `Nodes` record with the fields the adapter writes
(`__initialize_node` plus `state` and `nics`). -/
structure Node where
  name : String
  state : String
  softwareprofile : String
  hardwareprofile : String
  isIdle : Bool
  nics : List Nic
  deriving DecidableEq, Repr

/-- A staged session operation: `session.add(node)` or `session.delete(node)`. -/
inductive PendOp where
  | addN (n : Node)
  | delN (n : Node)
  deriving DecidableEq, Repr

/-- Apply one staged operation to the committed registry: an add appends the
record, a delete removes every record equal to it. -/
def applyOp (r : List Node) : PendOp → List Node
  | .addN n => r ++ [n]
  | .delN n => r.filter (fun m => m ≠ n)

/-- The database session: committed registry plus staged operations. -/
structure DbSession where
  registry : List Node
  pending : List PendOp
  deriving DecidableEq, Repr

/-- Stage `session.add(node)`. -/
def DbSession.addN (s : DbSession) (n : Node) : DbSession :=
  { s with pending := s.pending ++ [.addN n] }

/-- Stage `session.delete(node)`. -/
def DbSession.delN (s : DbSession) (n : Node) : DbSession :=
  { s with pending := s.pending ++ [.delN n] }

/-- Flush and commit the staged operations (`session.commit()`). -/
def DbSession.commit (s : DbSession) : DbSession :=
  { registry := s.pending.foldl applyOp s.registry, pending := [] }

/-- In-place mutation of an ORM object (`node.state = ...`, `node.nics = ...`):
every reference to the old record, committed or staged, now denotes the new
one. -/
def DbSession.mutate (s : DbSession) (old new : Node) : DbSession :=
  { registry := s.registry.map (fun m => if m = old then new else m),
    pending := s.pending.map (fun op =>
      match op with
      | .addN m => .addN (if m = old then new else m)
      | .delN m => .delN (if m = old then new else m)) }

/-! ### Launch specification and the per-unit environment -/

/-- The `node_spec` dict built in `__add_nodes`: hardware/software profile and
the resolved adapter configuration (the session handle is threaded
separately). -/
structure NodeSpec where
  nameFormat : String
  hardwareProfileName : String
  softwareProfileName : String
  configDict : RawConfig
  deriving DecidableEq, Repr

/-- Python `s.split('.', 1)`: the part before the first dot and the rest. -/
def splitFirstDot (s : String) : String × String :=
  let parts := splitDot s
  (parts.headD "", joinDot parts.tail)

/-- The node record created by `__oci_pre_launch_instance` for a generated
name: hostname part of the generated name joined with the installer's domain,
state `Launching`, profiles from the spec (`__initialize_node`). -/
def preLaunchNode (spec : NodeSpec) (genName installerHostname : String) : Node :=
  let hostname := (splitFirstDot genName).1
  let domain := (splitFirstDot installerHostname).2
  { name := hostname ++ "." ++ domain,
    state := "Launching",
    softwareprofile := spec.softwareProfileName,
    hardwareprofile := spec.hardwareProfileName,
    isIdle := false,
    nics := [] }

/-- Embeds `__oci_pre_launch_instance`: with a wildcard name format the node
dict stays empty; otherwise the placeholder is created, added to the session
and committed at once. -/
def oci_pre_launch_instance (spec : NodeSpec) (genName installerHostname : String)
    (s : DbSession) : Option Node × DbSession :=
  if spec.nameFormat = "*" then
    (none, s)
  else
    let node := preLaunchNode spec genName installerHostname
    (some node, (s.addN node).commit)

/-! ### Provider network interface lookup -/

/-- A VNIC attachment as returned by `list_vnic_attachments`. -/
structure VnicAttachment where
  instance_id : String
  lifecycle_state : String
  vnic_id : String
  deriving DecidableEq, Repr

/-- A VNIC as returned by `get_vnic`. -/
structure Vnic where
  private_ip : String
  public_ip : String
  deriving DecidableEq, Repr

/-- The virtual-network collaborator, modelled at the interface boundary of
the spec: `list_vnic_attachments(compartment_id)` keyed by compartment, and
`get_vnic(vnic_id)` as a lookup (absent models a falsy response). -/
structure NetEnv where
  attachments : List (String × List VnicAttachment)
  vnics : List (String × Vnic)
  deriving DecidableEq, Repr

/-- Embeds `__get_vnics(compartment_id)`. -/
def NetEnv.get_vnics (net : NetEnv) (compartment_id : String) : List VnicAttachment :=
  ((net.attachments.find? (fun p => p.1 = compartment_id)).map Prod.snd).getD []

/-- Embeds `get_vnic(vnic_id)`. -/
def NetEnv.get_vnic (net : NetEnv) (vnic_id : String) : Option Vnic :=
  (net.vnics.find? (fun p => p.1 = vnic_id)).map Prod.snd

/-- Embeds `__get_vnics_for_instance`: attachments in the compartment whose
`instance_id` matches and whose `lifecycle_state` is `ATTACHED`. -/
def get_vnics_for_instance (net : NetEnv) (instance_id compartment_id : String) :
    List VnicAttachment :=
  (net.get_vnics compartment_id).filter
    (fun v => v.instance_id = instance_id && v.lifecycle_state = "ATTACHED")

/-- Embeds `__get_instance_private_ips`: for each such attachment fetch the
VNIC and, when truthy, yield its private IP. -/
def get_instance_private_ips (net : NetEnv) (instance_id compartment_id : String) :
    List String :=
  (get_vnics_for_instance net instance_id compartment_id).filterMap
    (fun v => (net.get_vnic v.vnic_id).map Vnic.private_ip)

/-! ### Instance cache -/

/-- The dict written by `instanceCacheSet` in `_instance_post_launch`. -/
structure CacheEntry where
  id : String
  compartment_id : String
  shape : String
  vcpus : String
  deriving DecidableEq, Repr

/-- The instance cache: association list from node name to entry. -/
abbrev Cache := List (String × CacheEntry)

/-- Embeds `instanceCacheGet(name)`; `none` models the `ResourceNotFound`
raised on a missing entry. -/
def instanceCacheGet (c : Cache) (name : String) : Option CacheEntry :=
  ((c : List (String × CacheEntry)).find? (fun p => p.1 = name)).map Prod.snd

/-- Embeds `instanceCacheSet(name, entry)`. -/
def instanceCacheSet (c : Cache) (name : String) (e : CacheEntry) : Cache :=
  (name, e) :: (c : List (String × CacheEntry)).filter (fun p => p.1 ≠ name)

/-- Embeds `instanceCacheDelete(name)`. -/
def instanceCacheDelete (c : Cache) (name : String) : Cache :=
  (c : List (String × CacheEntry)).filter (fun p => p.1 ≠ name)

/-! ### Provider instances and the launch call -/

/-- A provider instance as returned by `get_instance(...).data` /
`launch_instance(...).data`. -/
structure Instance where
  id : String
  display_name : String
  compartment_id : String
  lifecycle_state : String
  deriving DecidableEq, Repr

/-- Embeds the template read in `__get_user_data`: opening the template file
fails (`.error`, an `IOError`) when the path is not readable at open time. -/
def get_user_data (template : String) (fs : List String) : Except String String :=
  if template ∈ fs then .ok "user-data" else .error "IOError: cannot open template"

/-- Embeds `_launch_instance`: construct the `OciSession` (which may raise on
vcpu derivation), compile the user data (which may raise on an unreadable
template), then perform the provider launch.  The provider launch call, the
wait for `RUNNING` (verified separately through `wait_for_instance_state`)
and the final `get_instance` are abstracted into a single provider outcome,
per the external-collaborator interface. -/
def launch_instance_fn (spec : NodeSpec) (kitConfigBase : String)
    (fs : List String) (providerOutcome : Except String Instance) :
    Except String Instance := do
  let session ← OciSession.make kitConfigBase spec.configDict
  let _ ← get_user_data session.template fs
  providerOutcome

/-! ### Post-launch -/

/-- Embeds `__initialize_node(name, hw, sw)`; `state` is not assigned there
(empty models the unset column). -/
def initialize_node (name : String) (spec : NodeSpec) : Node :=
  { name := name,
    state := "",
    softwareprofile := spec.softwareProfileName,
    hardwareprofile := spec.hardwareProfileName,
    isIdle := false,
    nics := [] }

/-- Arguments of the `_pre_add_host` host notification hook:
name, hardware profile, software profile, boot IP. -/
structure PreAddCall where
  name : String
  hardwareProfileName : String
  softwareProfileName : String
  bootIp : String
  deriving DecidableEq, Repr

/-- Result of one post-launch: the returned node (absent when the body
raised), the session and cache as left behind, and the host notification
issued, if any. -/
structure PostResult where
  node : Option Node
  session : DbSession
  cache : Cache
  preAdd : Option PreAddCall
  deriving DecidableEq, Repr

/-- Embeds `_instance_post_launch`.  Without a placeholder the node is
synthesized from the instance display name plus the installer domain and
added to the session; the node is then set to `Provisioned`, given one
`Nic(ip, boot=True)` per resolved private IP, and committed.  The cache
entry is then written (a missing `shape` key raises before the write), the
boot IP is selected as the first nic marked boot (raising `IndexError` when
there is none), and the host hook is notified.  A raise after the commit
leaves the committed session and any cache write in place and yields no
node. -/
def instance_post_launch (inst : Instance) (ndict : Option Node)
    (spec : NodeSpec) (net : NetEnv) (installerHostname : String)
    (s : DbSession) (cache : Cache) : PostResult :=
  let pre : Node × DbSession :=
    match ndict with
    | none =>
        let domainParts := (splitDot installerHostname).tail
        let fqdn := joinDot (inst.display_name :: domainParts)
        let n := initialize_node fqdn spec
        (n, s.addN n)
    | some n => (n, s)
  let node0 := pre.1
  let ips := get_instance_private_ips net inst.id inst.compartment_id
  let node1 : Node :=
    { node0 with state := "Provisioned", nics := ips.map (fun ip => ⟨ip, true⟩) }
  let s2 := ((pre.2.mutate node0 node1)).commit
  match spec.configDict.shape with
  | none =>
      { node := none, session := s2, cache := cache, preAdd := none }
  | some sh =>
      let entry : CacheEntry :=
        { id := inst.id, compartment_id := inst.id, shape := sh,
          vcpus := lastSeg sh }
      let cache2 := instanceCacheSet cache node1.name entry
      match node1.nics.filter Nic.boot with
      | [] => { node := none, session := s2, cache := cache2, preAdd := none }
      | bn :: _ =>
          { node := some node1, session := s2, cache := cache2,
            preAdd := some ⟨node1.name, spec.hardwareProfileName,
              spec.softwareProfileName, bn.ip⟩ }

/-! ### One launch unit and the concurrent fan-out -/

/-- Log levels used by the modelled paths. -/
inductive LogLevel where
  | debug
  | warning
  | error
  deriving DecidableEq, Repr

/-- A log entry: level and message. -/
abbrev LogEntry := LogLevel × String

/-- Per-unit environment: the external collaborators one launch unit talks
to.  The generated name comes from the naming policy, the provider outcome
abstracts the launch call through the final describe. -/
structure UnitEnv where
  genName : String
  installerHostname : String
  kitConfigBase : String
  fs : List String
  providerOutcome : Except String Instance
  net : NetEnv
  deriving Repr

/-- Outcome of one launch unit. -/
structure UnitResult where
  node : Option Node
  session : DbSession
  cache : Cache
  log : List LogEntry
  deriving DecidableEq, Repr

/-- Embeds `__oci_add_node`: pre-launch, then the guarded launch.  On a
launch failure with a placeholder present, the placeholder is deleted from
the session and the deletion committed, the failure is logged at error
level, and the unit yields no node without raising; otherwise post-launch
runs. -/
def oci_add_node (spec : NodeSpec) (env : UnitEnv) (s : DbSession)
    (cache : Cache) : UnitResult :=
  let pre := oci_pre_launch_instance spec env.genName env.installerHostname s
  match launch_instance_fn spec env.kitConfigBase env.fs env.providerOutcome with
  | .error e =>
      match pre.1 with
      | some n =>
          { node := none, session := (pre.2.delN n).commit, cache := cache,
            log := [(LogLevel.error, "Error launching instance: " ++ e)] }
      | none =>
          { node := none, session := pre.2, cache := cache,
            log := [(LogLevel.error, "Error launching instance: " ++ e)] }
  | .ok inst =>
      let r := instance_post_launch inst pre.1 spec env.net
        env.installerHostname pre.2 cache
      { node := r.node, session := r.session, cache := r.cache, log := [] }

/-- Embeds `__oci_add_nodes`: the units run as concurrent greenlets; their
results are modelled as the list of per-unit values in completion order (a
greenlet that raised has value `None`), and only non-`None` values are
collected. -/
def oci_add_nodes (unitResults : List (Option Node)) : List Node :=
  unitResults.filterMap id

/-- Embeds `getResourceAdapterConfig`: when the resolved dict names a
user-data script template, relative paths are joined onto the kit config
base, and a nonexistent path raises `ConfigurationError` (`.error`). -/
def getResourceAdapterConfig (raw : RawConfig) (kitConfigBase : String)
    (existingFiles : List String) : Except String RawConfig :=
  match raw.user_data_script_template with
  | none => .ok raw
  | some t =>
      let fn := if t.data.headD ' ' = '/' then t else kitConfigBase ++ "/" ++ t
      if fn ∈ existingFiles then
        .ok { raw with user_data_script_template := some fn }
      else
        .error ("ConfigurationError: user data script template does not exist: " ++ fn)

/-- Embeds `__add_nodes`: resolve the adapter configuration once for the
request (a `ConfigurationError` here propagates before any unit is spawned),
then fan out `count` units and collect their results. -/
def add_nodes (raw : RawConfig) (kitConfigBase : String)
    (existingFiles : List String) (unitResults : List (Option Node)) :
    Except String (List Node) :=
  match getResourceAdapterConfig raw kitConfigBase existingFiles with
  | .error e => .error e
  | .ok _ => .ok (oci_add_nodes unitResults)

/-- Embeds `start`: run `__add_nodes` (an uncaught exception propagates as
`.error`), log the count shortfall at warning level when fewer nodes than
requested were launched, and return the collected nodes.  The log returned
is the one `start` itself emits; `startLog` is that log. -/
def startLog (count : Nat) (nodes : List Node) : List LogEntry :=
  let shortfall : List LogEntry :=
    if nodes.length < count then
      [(LogLevel.warning, "node(s) requested, only some launched successfully")]
    else []
  ((LogLevel.debug, "start()") : LogEntry) ::
    (shortfall ++ [((LogLevel.debug, "start() session completed") : LogEntry)])

def start (count : Nat) (raw : RawConfig) (kitConfigBase : String)
    (existingFiles : List String) (unitResults : List (Option Node)) :
    Except String (List Node × List LogEntry) :=
  match add_nodes raw kitConfigBase existingFiles unitResults with
  | .error e => .error e
  | .ok nodes => .ok (nodes, startLog count nodes)

/-! ### The polling state waiter -/

/-- Embeds `_wait_for_instance_state` against a trace of the lifecycle
states reported by successive `get_instance` polls: return at the first poll
reporting the target state, yielding the number of polls consumed and the
`(instanceId, currentState)` arguments the optional progress callback is
invoked with (one invocation per non-matching poll, in order); `none` models
the loop never returning because the target never appears in the trace. -/
def wait_for_instance_state (instance_ocid target : String) :
    List String → Option (Nat × List (String × String))
  | [] => none
  | st :: rest =>
      if st = target then some (1, [])
      else (wait_for_instance_state instance_ocid target rest).map
        (fun r => (r.1 + 1, (instance_ocid, st) :: r.2))

/-! ### Decommission -/

/-- Observable steps of `_delete_node`, in execution order. -/
inductive Ev where
  | cacheGet (name : String)
  | getInstance (id : String)
  | terminate (id : String)
  | sleepGrace
  | poll (id : String) (observed : String)
  | cacheDelete (name : String)
  | hostCleanup (name : String)
  deriving DecidableEq, Repr

/-- Provider behaviour during one `_delete_node` run.  Modelled from the
spec: provider access errors surface as a distinguished resource-not-found
condition, identified with the `ResourceNotFound` exception the
`except` clause catches; `lookupFound` is the initial `get_instance`,
`terminateFound` the `terminate_instance` call, and `pollStates` the
lifecycle states reported by the polls of the termination wait. -/
structure DeleteEnv where
  lookupFound : Bool
  terminateFound : Bool
  pollStates : List String
  deriving DecidableEq, Repr

/-- Embeds `_delete_node`: inside the `try`, read the cache entry, describe
and terminate the instance, sleep the fixed grace period, poll until
`TERMINATED`, then delete the cache entry; a `ResourceNotFound` anywhere in
the `try` is swallowed; host-artifact cleanup (`deleteNodeCleanup`) runs in
every completed path.  The result is the final cache and the event trace;
`none` models the run never completing because the termination poll never
observes the target. -/
def delete_node (cache : Cache) (name : String) (env : DeleteEnv) :
    Option (Cache × List Ev) :=
  match instanceCacheGet cache name with
  | none =>
      some (cache, [Ev.cacheGet name, Ev.hostCleanup name])
  | some entry =>
      if !env.lookupFound then
        some (cache, [Ev.cacheGet name, Ev.getInstance entry.id, Ev.hostCleanup name])
      else if !env.terminateFound then
        some (cache,
          [Ev.cacheGet name, Ev.getInstance entry.id, Ev.terminate entry.id,
           Ev.hostCleanup name])
      else
        match wait_for_instance_state entry.id "TERMINATED" env.pollStates with
        | none => none
        | some r =>
            some (instanceCacheDelete cache name,
              [Ev.cacheGet name, Ev.getInstance entry.id, Ev.terminate entry.id,
               Ev.sleepGrace] ++
                (env.pollStates.take r.1).map (Ev.poll entry.id) ++
                [Ev.cacheDelete name, Ev.hostCleanup name])

/-! ## Shared lemmas -/

/-- The waiter consumes exactly the polls up to and including the first one
reporting the target, and collects one callback argument pair per earlier
non-matching poll. -/
theorem wait_first_occurrence (ocid target : String) (pre post : List String)
    (hpre : ∀ x ∈ pre, x ≠ target) :
    wait_for_instance_state ocid target (pre ++ target :: post) =
      some (pre.length + 1, pre.map (fun st => (ocid, st))) := by
  induction pre with
  | nil => simp [wait_for_instance_state]
  | cons a t ih =>
      have ha : a ≠ target := hpre a (List.mem_cons_self a t)
      have ht : ∀ x ∈ t, x ≠ target := fun x hx => hpre x (List.mem_cons_of_mem a hx)
      simp [wait_for_instance_state, ha, ih ht, Nat.add_comm]

/-- Taking one more element than a prefix yields the prefix plus the next
element. -/
theorem take_len_succ_append {α : Type} (pre : List α) (t : α) (post : List α) :
    (pre ++ t :: post).take (pre.length + 1) = pre ++ [t] := by
  induction pre with
  | nil => simp
  | cons a l ih => simp [List.take, ih]

/-- Predicate selecting the host-cleanup events of a trace. -/
def isHostCleanupEv : Ev → Bool
  | .hostCleanup _ => true
  | _ => false

/-- Poll events are never host-cleanup events. -/
theorem countP_hostCleanup_polls (i : String) (l : List String) :
    (l.map (Ev.poll i)).countP isHostCleanupEv = 0 := by
  induction l with
  | nil => rfl
  | cons a t ih => simp [List.countP_cons, isHostCleanupEv, ih]

/-- Reading the key just written returns the written entry. -/
theorem instanceCacheGet_set_self (c : Cache) (n : String) (e : CacheEntry) :
    instanceCacheGet (instanceCacheSet c n e) n = some e := by
  simp [instanceCacheGet, instanceCacheSet, List.find?_cons]

/-- Reading a deleted key returns nothing. -/
theorem instanceCacheGet_delete_self (c : Cache) (n : String) :
    instanceCacheGet (instanceCacheDelete c n) n = none := by
  induction c with
  | nil => rfl
  | cons p t ih =>
      by_cases h : p.1 = n
      · simp only [instanceCacheDelete, List.filter_cons] at ih ⊢
        rw [if_neg (by simp [h])]
        exact ih
      · simp only [instanceCacheDelete, List.filter_cons] at ih ⊢
        rw [if_pos (by simp [h])]
        simp only [instanceCacheGet, List.find?_cons] at ih ⊢
        have hd : decide (p.1 = n) = false := by simp [h]
        rw [hd]
        exact ih

/-! ## C6: the waiter returns at the first matching poll -/

/-- C6: for every sequence of provider state reports in which the target
state occurs, `_wait_for_instance_state` returns exactly at the first poll
reporting the target state (consuming `pre.length + 1` polls where `pre` is
the maximal non-matching prefix), and the progress callback arguments are
exactly one `(instanceId, currentState)` pair per earlier non-matching poll,
in order. -/
theorem claim_c6_waiter_first_match (instance_ocid target : String)
    (pre post : List String) (hpre : ∀ x ∈ pre, x ≠ target) :
    wait_for_instance_state instance_ocid target (pre ++ target :: post) =
      some (pre.length + 1, pre.map (fun st => (instance_ocid, st))) :=
  wait_first_occurrence instance_ocid target pre post hpre

/-- C6 witness: a concrete trace with two non-matching polls before the
target. -/
theorem claim_c6_witness :
    wait_for_instance_state "ocid1.instance.a" "RUNNING"
        (["PROVISIONING", "STARTING"] ++ "RUNNING" :: ["RUNNING"]) =
      some (3, [("ocid1.instance.a", "PROVISIONING"),
                ("ocid1.instance.a", "STARTING")]) :=
  claim_c6_waiter_first_match "ocid1.instance.a" "RUNNING"
    ["PROVISIONING", "STARTING"] ["RUNNING"] (by decide)

/-! ## C5: decommission ordering -/

/-- C5: for a node with a valid cache entry whose terminate path succeeds and
whose polls eventually report `TERMINATED`, `_delete_node` completes with
exactly this ordered trace: cache read, provider describe, terminate
request, fixed grace-period sleep, polls up to and including the first
`TERMINATED` observation, cache delete, host-artifact cleanup — so the
cache entry is deleted only after the waiter confirmed `TERMINATED`, the
final cache no longer holds the entry, and cleanup runs exactly once. -/
theorem claim_c5_decommission_ordering (cache : Cache) (name : String)
    (entry : CacheEntry) (pre post : List String)
    (hentry : instanceCacheGet cache name = some entry)
    (hpre : ∀ x ∈ pre, x ≠ "TERMINATED") :
    delete_node cache name
        { lookupFound := true, terminateFound := true,
          pollStates := pre ++ "TERMINATED" :: post } =
      some (instanceCacheDelete cache name,
        [Ev.cacheGet name, Ev.getInstance entry.id, Ev.terminate entry.id,
         Ev.sleepGrace] ++
          (pre ++ ["TERMINATED"]).map (Ev.poll entry.id) ++
          [Ev.cacheDelete name, Ev.hostCleanup name]) ∧
      instanceCacheGet (instanceCacheDelete cache name) name = none ∧
      ([Ev.cacheGet name, Ev.getInstance entry.id, Ev.terminate entry.id,
        Ev.sleepGrace] ++
          (pre ++ ["TERMINATED"]).map (Ev.poll entry.id) ++
          [Ev.cacheDelete name, Ev.hostCleanup name]).countP isHostCleanupEv = 1 := by
  refine ⟨?_, instanceCacheGet_delete_self cache name, ?_⟩
  · simp only [delete_node, hentry, Bool.not_true,
      wait_first_occurrence entry.id "TERMINATED" pre post hpre]
    simp [take_len_succ_append pre "TERMINATED" post]
  · simp [List.countP_append, List.countP_cons, isHostCleanupEv,
      countP_hostCleanup_polls entry.id (pre ++ ["TERMINATED"])]

/-- Concrete cache entry used by the decommission witnesses. -/
def entryW : CacheEntry :=
  { id := "ocid1.x", compartment_id := "ocid1.x",
    shape := "VM.Standard1.2", vcpus := "2" }

/-- Concrete one-entry cache used by the decommission witnesses. -/
def cacheW : Cache := [("compute-01.example.com", entryW)]

/-- C5 witness: a concrete cache entry and poll trace. -/
theorem claim_c5_witness :
    delete_node cacheW "compute-01.example.com"
        { lookupFound := true, terminateFound := true,
          pollStates := ["RUNNING", "TERMINATING"] ++ "TERMINATED" :: [] } =
      some (instanceCacheDelete cacheW "compute-01.example.com",
        [Ev.cacheGet "compute-01.example.com", Ev.getInstance entryW.id,
         Ev.terminate entryW.id, Ev.sleepGrace] ++
          (["RUNNING", "TERMINATING"] ++ ["TERMINATED"]).map (Ev.poll entryW.id) ++
          [Ev.cacheDelete "compute-01.example.com",
           Ev.hostCleanup "compute-01.example.com"]) ∧
      instanceCacheGet (instanceCacheDelete cacheW "compute-01.example.com")
        "compute-01.example.com" = none ∧
      ([Ev.cacheGet "compute-01.example.com", Ev.getInstance entryW.id,
        Ev.terminate entryW.id, Ev.sleepGrace] ++
          (["RUNNING", "TERMINATING"] ++ ["TERMINATED"]).map (Ev.poll entryW.id) ++
          [Ev.cacheDelete "compute-01.example.com",
           Ev.hostCleanup "compute-01.example.com"]).countP isHostCleanupEv = 1 :=
  claim_c5_decommission_ordering cacheW "compute-01.example.com" entryW
    ["RUNNING", "TERMINATING"] [] (by decide) (by decide)

/-! ## C4: decommission of an instance gone from the provider -/

/-- C4 counterexample: a node whose cache entry names an instance the
provider no longer knows.  The run completes, but the resulting cache still
holds the entry (reading it back yields the entry, not absence), because the
caught `ResourceNotFound` skips the `instanceCacheDelete` step. -/
theorem claim_c4_counterexample :
    (delete_node cacheW "compute-01.example.com"
        { lookupFound := false, terminateFound := false, pollStates := [] }).map
        (fun r => instanceCacheGet r.1 "compute-01.example.com") =
      some (some entryW) ∧
      some (some entryW) ≠ some (none : Option CacheEntry) :=
  ⟨by decide, by decide⟩

/-- C4 amended: decommissioning a node whose cached provider id no longer
exists on the provider (resource-not-found on the lookup or on the
terminate call) completes without raising and still performs host-side
artifact cleanup exactly once, but the instance-cache entry is left in
place rather than absent: the swallowed `ResourceNotFound` skips the
cache-delete step, so the final cache is the initial one. -/
theorem claim_c4_amended (cache : Cache) (name : String) (entry : CacheEntry)
    (env : DeleteEnv) (hentry : instanceCacheGet cache name = some entry)
    (hgone : env.lookupFound = false ∨
      (env.lookupFound = true ∧ env.terminateFound = false)) :
    ∃ evs, delete_node cache name env = some (cache, evs) ∧
      evs.countP isHostCleanupEv = 1 ∧
      instanceCacheGet cache name = some entry := by
  rcases hgone with h | ⟨h1, h2⟩
  · exact ⟨[Ev.cacheGet name, Ev.getInstance entry.id, Ev.hostCleanup name],
      by simp [delete_node, hentry, h], by simp [isHostCleanupEv], hentry⟩
  · exact ⟨[Ev.cacheGet name, Ev.getInstance entry.id, Ev.terminate entry.id,
      Ev.hostCleanup name],
      by simp [delete_node, hentry, h1, h2], by simp [isHostCleanupEv], hentry⟩

/-- C4 amended witness: the lookup-not-found case on a concrete cache. -/
theorem claim_c4_amended_witness :
    ∃ evs, delete_node cacheW "compute-01.example.com"
        { lookupFound := false, terminateFound := false, pollStates := [] } =
        some (cacheW, evs) ∧
      evs.countP isHostCleanupEv = 1 ∧
      instanceCacheGet cacheW "compute-01.example.com" = some entryW :=
  claim_c4_amended cacheW "compute-01.example.com" entryW
    { lookupFound := false, terminateFound := false, pollStates := [] }
    (by decide) (Or.inl rfl)

/-! ## C1 and C7: rollback of the placeholder on launch failure -/

/-- The committed registry left behind by a failed unit: pre-launch flush,
the appended placeholder, then the rollback filtering the placeholder out. -/
def rollbackRegistry (s : DbSession) (ph : Node) : List Node :=
  ((s.pending.foldl applyOp s.registry) ++ [ph]).filter (fun m => m ≠ ph)

/-- Closed form of a launch unit whose provider launch fails after a
placeholder was created: the unit yields no node, logs the failure at error
level, leaves the cache untouched, and its final session is the committed
rollback registry with nothing staged. -/
theorem oci_add_node_launch_failure (spec : NodeSpec) (env : UnitEnv)
    (s : DbSession) (cache : Cache) (e : String)
    (hname : spec.nameFormat ≠ "*")
    (hfail : launch_instance_fn spec env.kitConfigBase env.fs
      env.providerOutcome = .error e) :
    oci_add_node spec env s cache =
      { node := none,
        session :=
          { registry := rollbackRegistry s
              (preLaunchNode spec env.genName env.installerHostname),
            pending := [] },
        cache := cache,
        log := [(LogLevel.error, "Error launching instance: " ++ e)] } := by
  simp [oci_add_node, oci_pre_launch_instance, hname, hfail, DbSession.addN,
    DbSession.delN, DbSession.commit, applyOp, List.foldl_append,
    rollbackRegistry]

/-- C1: for every launch unit that created a registry placeholder (the
hardware profile's name format is not the wildcard) and whose provider
launch step then fails, the unit deletes the placeholder and commits the
deletion before completing: it returns no node, the final committed
registry no longer contains the placeholder, and no operation is left
staged.  The unit itself does not raise (the model is a total function). -/
theorem claim_c1_rollback_on_launch_failure (spec : NodeSpec) (env : UnitEnv)
    (s : DbSession) (cache : Cache) (e : String)
    (hname : spec.nameFormat ≠ "*")
    (hfail : launch_instance_fn spec env.kitConfigBase env.fs
      env.providerOutcome = .error e) :
    (oci_add_node spec env s cache).node = none ∧
    preLaunchNode spec env.genName env.installerHostname ∉
      (oci_add_node spec env s cache).session.registry ∧
    (oci_add_node spec env s cache).session.pending = [] := by
  rw [oci_add_node_launch_failure spec env s cache e hname hfail]
  refine ⟨rfl, ?_, rfl⟩
  simp [rollbackRegistry, List.mem_filter]

/-- C7: rollback after a failed launch unit is unit-scoped.  For any record
different from the failed unit's own placeholder — in particular a sibling
unit's node record — membership in the registry is unchanged by the failing
unit's run: the rollback deletes only the placeholder. -/
theorem claim_c7_unit_scoped_rollback (spec : NodeSpec) (env : UnitEnv)
    (s : DbSession) (cache : Cache) (e : String) (sibling : Node)
    (hname : spec.nameFormat ≠ "*")
    (hfail : launch_instance_fn spec env.kitConfigBase env.fs
      env.providerOutcome = .error e)
    (hpend : s.pending = [])
    (hsib : sibling ≠ preLaunchNode spec env.genName env.installerHostname) :
    sibling ∈ (oci_add_node spec env s cache).session.registry ↔
      sibling ∈ s.registry := by
  rw [oci_add_node_launch_failure spec env s cache e hname hfail]
  simp [rollbackRegistry, hpend, List.mem_filter, hsib]

/-- Concrete launch specification used by the launch-unit witnesses: a
hardware profile with generated names and a parseable shape. -/
def specW : NodeSpec :=
  { nameFormat := "compute-#NN",
    hardwareProfileName := "hwprofile",
    softwareProfileName := "swprofile",
    configDict := { shape := some "VM.Standard1.2",
                    user_data_script_template := some "/base/oci_bootstrap.tmpl" } }

/-- Concrete per-unit environment whose provider launch call fails. -/
def envFailW : UnitEnv :=
  { genName := "compute-01.priv",
    installerHostname := "installer.example.com",
    kitConfigBase := "/base",
    fs := ["/base/oci_bootstrap.tmpl"],
    providerOutcome := .error "ServiceError: 500",
    net := { attachments := [], vnics := [] } }

/-- A sibling unit's already-committed node record. -/
def siblingW : Node :=
  { name := "compute-02.example.com", state := "Provisioned",
    softwareprofile := "swprofile", hardwareprofile := "hwprofile",
    isIdle := false, nics := [{ ip := "10.0.0.9", boot := true }] }

/-- C1 witness: a concrete failing unit on an empty registry. -/
theorem claim_c1_witness :
    specW.nameFormat ≠ "*" ∧
      ((oci_add_node specW envFailW { registry := [], pending := [] } []).node = none ∧
        preLaunchNode specW envFailW.genName envFailW.installerHostname ∉
          (oci_add_node specW envFailW { registry := [], pending := [] } []).session.registry ∧
        (oci_add_node specW envFailW { registry := [], pending := [] } []).session.pending = []) :=
  ⟨by decide,
    claim_c1_rollback_on_launch_failure specW envFailW
      { registry := [], pending := [] } [] "ServiceError: 500" (by decide) rfl⟩

/-- C7 witness: a concrete failing unit next to a committed sibling record. -/
theorem claim_c7_witness :
    siblingW ≠ preLaunchNode specW envFailW.genName envFailW.installerHostname ∧
      (siblingW ∈
          (oci_add_node specW envFailW
            { registry := [siblingW], pending := [] } []).session.registry ↔
        siblingW ∈ [siblingW]) :=
  ⟨by decide,
    claim_c7_unit_scoped_rollback specW envFailW
      { registry := [siblingW], pending := [] } [] "ServiceError: 500" siblingW
      (by decide) rfl rfl (by decide)⟩

/-! ## C2: partial success is non-fatal -/

/-- Collecting the non-`None` unit values keeps exactly as many entries as
there were successful units. -/
theorem length_filterMap_id {α : Type} (l : List (Option α)) :
    (l.filterMap id).length = l.countP (fun r => r.isSome) := by
  induction l with
  | nil => rfl
  | cons a t ih =>
      cases a with
      | none => simp [List.filterMap_cons, List.countP_cons, ih]
      | some x => simp [List.filterMap_cons, List.countP_cons, ih]

/-- C2: for a launch request of count `N` whose request-level configuration
resolves, when exactly `k` of the `N` concurrently-launched units succeed,
`start` returns (raises no exception) exactly the `k` successfully
finalized nodes, its log carries one warning-level entry exactly when
`k < N`, and it carries no error-level entry. -/
theorem claim_c2_partial_success (N k : Nat) (raw : RawConfig)
    (kitConfigBase : String) (existingFiles : List String) (cfg : RawConfig)
    (unitResults : List (Option Node))
    (hcfg : getResourceAdapterConfig raw kitConfigBase existingFiles = .ok cfg)
    (_hlen : unitResults.length = N)
    (hk : unitResults.countP (fun r => r.isSome) = k) :
    start N raw kitConfigBase existingFiles unitResults =
      .ok (unitResults.filterMap id, startLog N (unitResults.filterMap id)) ∧
    (unitResults.filterMap id).length = k ∧
    (startLog N (unitResults.filterMap id)).countP
        (fun en => en.1 = LogLevel.warning) = (if k < N then 1 else 0) ∧
    (startLog N (unitResults.filterMap id)).countP
        (fun en => en.1 = LogLevel.error) = 0 := by
  have hlenk : (unitResults.filterMap id).length = k :=
    (length_filterMap_id unitResults).trans hk
  refine ⟨?_, hlenk, ?_, ?_⟩
  · simp [start, add_nodes, hcfg, oci_add_nodes]
  · by_cases h : k < N
    · simp [startLog, hlenk, h, List.countP_cons, List.countP_append]
    · simp [startLog, hlenk, h, List.countP_cons, List.countP_append]
  · by_cases h : k < N
    · simp [startLog, hlenk, h, List.countP_cons, List.countP_append]
    · simp [startLog, hlenk, h, List.countP_cons, List.countP_append]

/-- Raw configuration without a template override: request-level resolution
always succeeds on it. -/
def rawNoTemplateW : RawConfig := { shape := some "VM.Standard1.2" }

/-- C2 witness: two units, one succeeding and one failing. -/
theorem claim_c2_witness :
    start 2 rawNoTemplateW "/base" [] [some siblingW, none] =
      .ok ([some siblingW, none].filterMap id,
        startLog 2 ([some siblingW, none].filterMap id)) ∧
    ([some siblingW, none].filterMap id).length = 1 ∧
    (startLog 2 ([some siblingW, none].filterMap id)).countP
        (fun en => en.1 = LogLevel.warning) = (if 1 < 2 then 1 else 0) ∧
    (startLog 2 ([some siblingW, none].filterMap id)).countP
        (fun en => en.1 = LogLevel.error) = 0 :=
  claim_c2_partial_success 2 1 rawNoTemplateW "/base" [] rawNoTemplateW
    [some siblingW, none] rfl rfl (by decide)

/-! ## C8: where configuration/validation failures strike -/

/-- Raw configuration naming a user-data template that does not exist. -/
def rawMissingTemplateW : RawConfig :=
  { shape := some "VM.Standard1.2",
    user_data_script_template := some "missing.tmpl" }

/-- A second sibling node record. -/
def node2W : Node :=
  { name := "compute-03.example.com", state := "Provisioned",
    softwareprofile := "swprofile", hardwareprofile := "hwprofile",
    isIdle := false, nics := [{ ip := "10.0.0.10", boot := true }] }

/-- C8 counterexample: a request of count 2 whose two launch units would
both succeed, but whose configured user-data script template does not
exist.  The nonexistent template is discovered once, request-wide, in
`getResourceAdapterConfig` called from `__add_nodes` before any unit is
spawned: `start` raises `ConfigurationError` and both sibling attempts are
aborted, contradicting the claim that such a failure is fatal only to the
single launch attempt that discovers it. -/
theorem claim_c8_counterexample :
    start 2 rawMissingTemplateW "/base" [] [some siblingW, some node2W] =
      .error
        "ConfigurationError: user data script template does not exist: /base/missing.tmpl" ∧
    ([some siblingW, some node2W].filterMap id).length = 2 :=
  ⟨rfl, rfl⟩

/-- A unit whose guarded launch step fails — for any reason discovered
there, including a unit-level configuration failure (unparseable shape in
`OciSession`, template unreadable at open time) or a provider rejection —
yields no node and nothing else. -/
theorem oci_add_node_fail_none (spec : NodeSpec) (env : UnitEnv)
    (s : DbSession) (cache : Cache) (e : String)
    (hunit : launch_instance_fn spec env.kitConfigBase env.fs
      env.providerOutcome = .error e) :
    (oci_add_node spec env s cache).node = none := by
  simp only [oci_add_node, hunit]
  cases (oci_pre_launch_instance spec env.genName env.installerHostname s).1 <;> rfl

/-- C8 amended: a missing required launch parameter or a template unreadable
when a unit opens it is fatal only to the launch attempt that discovers it —
that unit yields no node while the fan-out still returns every sibling's
result — but a nonexistent user-data script template path is discovered
once during request-wide configuration resolution in `__add_nodes`, before
any unit is spawned, and aborts the entire request. -/
theorem claim_c8_amended (raw : RawConfig) (kitConfigBase : String)
    (existingFiles : List String) (count : Nat)
    (unitResults : List (Option Node)) (spec : NodeSpec) (env : UnitEnv)
    (s : DbSession) (cache : Cache) (e : String)
    (hunit : launch_instance_fn spec env.kitConfigBase env.fs
      env.providerOutcome = .error e) :
    (oci_add_node spec env s cache).node = none ∧
    start count raw kitConfigBase existingFiles unitResults =
      (match getResourceAdapterConfig raw kitConfigBase existingFiles with
       | .error e2 => .error e2
       | .ok _ => .ok (unitResults.filterMap id,
           startLog count (unitResults.filterMap id))) := by
  refine ⟨oci_add_node_fail_none spec env s cache e hunit, ?_⟩
  cases hc : getResourceAdapterConfig raw kitConfigBase existingFiles with
  | error e2 => simp [start, add_nodes, hc]
  | ok cfg => simp [start, add_nodes, hc, oci_add_nodes]

/-- C8 amended witness: a concrete failing unit next to the request-wide
resolution outcomes for an existing and a missing template. -/
theorem claim_c8_amended_witness :
    (oci_add_node specW envFailW { registry := [], pending := [] } []).node = none ∧
    start 2 rawMissingTemplateW "/base" [] [some siblingW, some node2W] =
      (match getResourceAdapterConfig rawMissingTemplateW "/base" [] with
       | .error e2 => .error e2
       | .ok _ => .ok (([some siblingW, some node2W] :
             List (Option Node)).filterMap id,
           startLog 2 (([some siblingW, some node2W] :
             List (Option Node)).filterMap id))) :=
  claim_c8_amended rawMissingTemplateW "/base" [] 2
    [some siblingW, some node2W] specW envFailW
    { registry := [], pending := [] } [] "ServiceError: 500" rfl

/-! ## C3 and C9: post-launch interfaces and cache entry -/

/-- Every nic the post-launch builds carries `boot := true`, so the boot
filter keeps them all. -/
theorem filter_boot_map (l : List String) :
    (l.map (fun ip => ({ ip := ip, boot := true } : Nic))).filter Nic.boot =
      l.map (fun ip => ({ ip := ip, boot := true } : Nic)) := by
  induction l with
  | nil => rfl
  | cons a t ih => simp [List.filter_cons, ih]

/-- Counting the boot-marked nics among the built ones counts them all. -/
theorem countP_boot_map (l : List String) :
    (l.map (fun ip => ({ ip := ip, boot := true } : Nic))).countP Nic.boot =
      l.length := by
  induction l with
  | nil => rfl
  | cons a t ih => simp [List.countP_cons, ih]

/-- Closed form of a successful post-launch: when the configuration carries
a shape and at least one private IP resolves, the returned node's nics are
one boot-marked nic per resolved IP, the cache gains the entry keyed by the
node name, and the host hook receives the first resolved IP. -/
theorem instance_post_launch_success (inst : Instance) (ndict : Option Node)
    (spec : NodeSpec) (net : NetEnv) (ihost : String) (s : DbSession)
    (cache : Cache) (sh ip0 : String) (rest : List String)
    (hshape : spec.configDict.shape = some sh)
    (hips : get_instance_private_ips net inst.id inst.compartment_id =
      ip0 :: rest) :
    ∃ n, (instance_post_launch inst ndict spec net ihost s cache).node = some n ∧
      n.nics = (ip0 :: rest).map (fun ip => ({ ip := ip, boot := true } : Nic)) ∧
      (instance_post_launch inst ndict spec net ihost s cache).cache =
        instanceCacheSet cache n.name
          { id := inst.id, compartment_id := inst.id, shape := sh,
            vcpus := lastSeg sh } ∧
      (instance_post_launch inst ndict spec net ihost s cache).preAdd =
        some ⟨n.name, spec.hardwareProfileName, spec.softwareProfileName, ip0⟩ := by
  simp only [instance_post_launch, hips, hshape]
  rw [show ((ip0 :: rest).map (fun ip => ({ ip := ip, boot := true } : Nic))) =
    ({ ip := ip0, boot := true } : Nic) ::
      rest.map (fun ip => ({ ip := ip, boot := true } : Nic)) from rfl]
  rw [List.filter_cons]
  exact ⟨_, rfl, rfl, rfl, rfl⟩

/-- Concrete provider instance used by the post-launch scenarios. -/
def instW : Instance :=
  { id := "i1", display_name := "compute-01", compartment_id := "c1",
    lifecycle_state := "RUNNING" }

/-- Concrete network environment in which instance `i1` has two attached
VNICs (plus a detached one and one of another instance, both filtered out). -/
def net2W : NetEnv :=
  { attachments := [("c1",
      [{ instance_id := "i1", lifecycle_state := "ATTACHED", vnic_id := "v1" },
       { instance_id := "i1", lifecycle_state := "ATTACHED", vnic_id := "v2" },
       { instance_id := "i2", lifecycle_state := "ATTACHED", vnic_id := "v3" },
       { instance_id := "i1", lifecycle_state := "DETACHED", vnic_id := "v4" }])],
    vnics := [("v1", { private_ip := "10.0.0.1", public_ip := "1.2.3.4" }),
              ("v2", { private_ip := "10.0.0.2", public_ip := "1.2.3.5" }),
              ("v3", { private_ip := "10.0.0.3", public_ip := "1.2.3.6" })] }

/-- Concrete network environment in which instance `i1` has exactly one
attached VNIC. -/
def net1W : NetEnv :=
  { attachments := [("c1",
      [{ instance_id := "i1", lifecycle_state := "ATTACHED", vnic_id := "v1" }])],
    vnics := [("v1", { private_ip := "10.0.0.1", public_ip := "1.2.3.4" })] }

/-- The placeholder record the concrete launch unit committed pre-launch. -/
def phW : Node := preLaunchNode specW "compute-01.priv" "installer.example.com"

/-- C3 counterexample: a successfully post-launched node whose instance has
two resolved network interfaces.  The node gets one `Nic` per resolved
address, but BOTH are marked as boot interfaces (`boot=True` is set on every
one), so it is false that exactly one of them is marked as the boot
interface. -/
theorem claim_c3_counterexample :
    ((instance_post_launch instW (some phW) specW net2W "installer.example.com"
        { registry := [phW], pending := [] } []).node).map
        (fun n => (n.nics.length, n.nics.countP Nic.boot)) = some (2, 2) ∧
      (2 : Nat) ≠ 1 :=
  ⟨rfl, by decide⟩

/-- C3 amended: for every successfully post-launched node whose instance has
at least one resolved network interface, the node record is given one
`NetworkInterface` per resolved address and EVERY one of them is marked as a
boot interface (so exactly one is marked precisely when exactly one address
resolves); the boot IP handed to the host notification hook is the first
resolved one. -/
theorem claim_c3_amended (inst : Instance) (ndict : Option Node)
    (spec : NodeSpec) (net : NetEnv) (ihost : String) (s : DbSession)
    (cache : Cache) (sh ip0 : String) (rest : List String)
    (hshape : spec.configDict.shape = some sh)
    (hips : get_instance_private_ips net inst.id inst.compartment_id =
      ip0 :: rest) :
    ∃ n, (instance_post_launch inst ndict spec net ihost s cache).node = some n ∧
      n.nics = (ip0 :: rest).map (fun ip => ({ ip := ip, boot := true } : Nic)) ∧
      n.nics.length = (ip0 :: rest).length ∧
      n.nics.countP Nic.boot = n.nics.length ∧
      (instance_post_launch inst ndict spec net ihost s cache).preAdd =
        some ⟨n.name, spec.hardwareProfileName, spec.softwareProfileName, ip0⟩ := by
  obtain ⟨n, hn, hnics, hcache, hpre⟩ :=
    instance_post_launch_success inst ndict spec net ihost s cache sh ip0 rest
      hshape hips
  refine ⟨n, hn, hnics, ?_, ?_, hpre⟩
  · rw [hnics, List.length_map]
  · rw [hnics, countP_boot_map, List.length_map]

/-- C3 amended witness: the single-interface case on concrete data. -/
theorem claim_c3_amended_witness :
    ∃ n, (instance_post_launch instW (some phW) specW net1W
        "installer.example.com" { registry := [phW], pending := [] } []).node =
        some n ∧
      n.nics = (["10.0.0.1"] : List String).map
        (fun ip => ({ ip := ip, boot := true } : Nic)) ∧
      n.nics.length = (["10.0.0.1"] : List String).length ∧
      n.nics.countP Nic.boot = n.nics.length ∧
      (instance_post_launch instW (some phW) specW net1W
          "installer.example.com" { registry := [phW], pending := [] } []).preAdd =
        some ⟨n.name, specW.hardwareProfileName, specW.softwareProfileName,
          "10.0.0.1"⟩ :=
  claim_c3_amended instW (some phW) specW net1W "installer.example.com"
    { registry := [phW], pending := [] } [] "VM.Standard1.2" "10.0.0.1" []
    rfl rfl

/-- C9: for every successful post-launch, the instance-cache entry written
under the node's name has `compartment_id` set to the instance's id — the
same value as its `id` field, not the instance's compartment id — while
`id` is the instance id and `vcpus` is the string form of the last
dot-separated segment of the configured shape. -/
theorem claim_c9_cache_entry (inst : Instance) (ndict : Option Node)
    (spec : NodeSpec) (net : NetEnv) (ihost : String) (s : DbSession)
    (cache : Cache) (sh ip0 : String) (rest : List String)
    (hshape : spec.configDict.shape = some sh)
    (hips : get_instance_private_ips net inst.id inst.compartment_id =
      ip0 :: rest) :
    ∃ n, (instance_post_launch inst ndict spec net ihost s cache).node = some n ∧
      instanceCacheGet
          (instance_post_launch inst ndict spec net ihost s cache).cache n.name =
        some { id := inst.id, compartment_id := inst.id, shape := sh,
               vcpus := lastSeg sh } := by
  obtain ⟨n, hn, _, hcache, _⟩ :=
    instance_post_launch_success inst ndict spec net ihost s cache sh ip0 rest
      hshape hips
  exact ⟨n, hn, by rw [hcache, instanceCacheGet_set_self]⟩

/-- C9 witness: the same concrete single-interface post-launch, with an
instance whose compartment id (`c1`) differs from its id (`i1`); the cached
`compartment_id` is `i1`. -/
theorem claim_c9_witness :
    ∃ n, (instance_post_launch instW (some phW) specW net1W
        "installer.example.com" { registry := [phW], pending := [] } []).node =
        some n ∧
      instanceCacheGet
          (instance_post_launch instW (some phW) specW net1W
            "installer.example.com" { registry := [phW], pending := [] } []).cache
          n.name =
        some { id := instW.id, compartment_id := instW.id,
               shape := "VM.Standard1.2", vcpus := lastSeg "VM.Standard1.2" } :=
  claim_c9_cache_entry instW (some phW) specW net1W "installer.example.com"
    { registry := [phW], pending := [] } [] "VM.Standard1.2" "10.0.0.1" []
    rfl rfl

/-! ## C10: vcpu derivation from the shape -/

/-- C10: when the merged session configuration supplies no explicit `vcpus`
value, `OciSession` construction derives the count as the `int` parse of the
last dot-separated segment of the configured shape: it succeeds with exactly
that count when the segment parses, and raises — so that every launch
attempt constructing the session fails too — when it does not. -/
theorem claim_c10_vcpus_derivation (kitConfigBase : String) (cfg : RawConfig)
    (hnone : cfg.vcpus = none) :
    (∀ n, cores_from_shape cfg.effShape = some n →
      OciSession.make kitConfigBase cfg =
        .ok { shape := cfg.effShape, vcpus := n,
              template := cfg.effTemplate kitConfigBase }) ∧
    (cores_from_shape cfg.effShape = none →
      OciSession.make kitConfigBase cfg =
        .error "ValueError: invalid literal for int()" ∧
      ∀ (spec : NodeSpec) (fs : List String) (prov : Except String Instance),
        spec.configDict = cfg →
          launch_instance_fn spec kitConfigBase fs prov =
            .error "ValueError: invalid literal for int()") := by
  constructor
  · intro n hn
    simp [OciSession.make, hnone, hn]
  · intro hn
    have hmk : OciSession.make kitConfigBase cfg =
        .error "ValueError: invalid literal for int()" := by
      simp [OciSession.make, hnone, hn]
    refine ⟨hmk, fun spec fs prov hspec => ?_⟩
    simp only [launch_instance_fn, hspec, hmk]
    rfl

/-- C10 witness: a shape whose last segment parses (yielding that count) and
one whose last segment does not (failing construction). -/
theorem claim_c10_witness :
    OciSession.make "/base" { shape := some "VM.Standard1.4" } =
      .ok { shape := "VM.Standard1.4", vcpus := 4,
            template := "/base/oci_bootstrap.tmpl" } ∧
    OciSession.make "/base" { shape := some "VM.DenseIO" } =
      .error "ValueError: invalid literal for int()" :=
  ⟨(claim_c10_vcpus_derivation "/base" { shape := some "VM.Standard1.4" } rfl).1
      4 rfl,
    ((claim_c10_vcpus_derivation "/base" { shape := some "VM.DenseIO" } rfl).2
      rfl).1⟩

end OracleKit
